import Mathlib

/-
Verification of the orchestration contract of src/src/functions/main.py,
the single HTTP-triggered cloud function of this repository.

The embedding below follows the source line by line.  Two editing slips in
the source matter throughout and are modelled, not repaired:

1. The handler obtener_y_guardar_datos (lines 134-238) never assigns the
   local variable data: no call to obtener_datos_accion appears anywhere in
   the handler body, so the occurrence of the name data at line 167 is
   unbound.  At run time every request that passes the store check raises
   NameError there (after the optional analysis block), the top-level
   except at line 235 catches it, and the request answers 500.  The dead
   scheduler draft at line 263 contains exactly the missing assignment, and
   the handler docstring says it gets stock data, so the intent is clear.
   We model the deployed behaviour in obtener_y_guardar_datos, and the
   branch code of lines 150-234 - which in the source is a function of the
   free name data - in handlerBody, which takes data as a parameter.

2. Lines 220-223 are a stray duplicated hunk (they repeat lines 217-219
   and 224) that does not parse as Python.  It duplicates adjacent live
   text and adds no behaviour; the embedding models the handler without
   the stray copy.
-/

namespace HIBILLX

/-- Value of one cell in a provider row: a defined rational number or the
pandas missing marker NaN.  The shaper performs no arithmetic on cells, so
rationals model the numeric payload exactly. -/
inductive Cell where
  | num (q : Rat)
  | nan
  deriving DecidableEq

/-- A provider timestamp: the absolute instant (the value kept by pandas
tz_convert None, which converts to UTC and drops the timezone) together
with the provider timezone offset in minutes, which only affects display. -/
structure Timestamp where
  instant : Int
  offsetMin : Int
  deriving DecidableEq

/-- pandas DatetimeIndex.tz_convert None (line 170): convert to UTC and drop
the timezone, leaving the naive UTC instant. -/
def tzConvertNone (t : Timestamp) : Int :=
  t.instant

/-- datetime.isoformat on the naive timestamp (line 181), modelled as an
injective string rendering of the instant; none of the claims depend on the
concrete date syntax, only on the key structure of the shaped mapping. -/
def isoformat (t : Int) : String :=
  toString t

/-- The yfinance download result: rows indexed by timestamp, each row a
mapping from field name (Open, High, Low, Close, Volume) to a cell. -/
structure DataFrame where
  rows : List (Timestamp × List (String × Cell))
  deriving DecidableEq

/-- Outcome of one outbound provider call as observed at the call site: the
call returns a value, or it raises and the message is str(e).  For the
Genkit client the raising case covers every requests.RequestException,
including the HTTPError raised by raise_for_status and the JSON decode
failure of response.json, a RequestException subclass in requests 2.27 and
later. -/
inductive CallOutcome (α : Type) where
  | ok (a : α)
  | exn (msg : String)
  deriving DecidableEq

/-- obtener_datos_accion, main.py lines 49-72: run yf.download for the
symbol; an empty frame yields None, a non-empty frame is returned, and any
raised exception is caught and also yields None.  symbol, period and
interval are passed through to the provider and do not affect the local
control flow, so the model keys on the call outcome alone. -/
def obtener_datos_accion (outcome : CallOutcome DataFrame) : Option DataFrame :=
  match outcome with
  | .ok df => if df.rows.isEmpty then none else some df
  | .exn _ => none

/-- Character-list helper: pat is an initial run of l.  Used only to model
the Python substring operator on str. -/
def isPrefOf : List Char → List Char → Bool
  | [], _ => true
  | _ :: _, [] => false
  | p :: ps, c :: cs => p == c && isPrefOf ps cs

/-- Character-list helper: pat occurs as a contiguous run inside l. -/
def hasSub (pat : List Char) : List Char → Bool
  | [] => isPrefOf pat []
  | c :: cs => isPrefOf pat (c :: cs) || hasSub pat cs

/-- Models the Python expression testing whether the text error occurs as a
substring of the str s. -/
def strContainsErr (s : String) : Bool :=
  hasSub "error".toList s.toList

/-- Shallow model of the Python values that flow through the handler as
analysis results: Python None, a str, or a JSON-style dict whose values are
strings (the error markers of the wrappers and the Genkit flow responses the
handler inspects). -/
inductive PVal where
  | pnone
  | pstr (s : String)
  | pdict (d : List (String × String))
  deriving DecidableEq

/-- Python truthiness for the values above: None is falsy, a str is truthy
iff non-empty, a dict is truthy iff non-empty. -/
def PVal.truthy : PVal → Bool
  | .pnone => false
  | .pstr s => !(s == "")
  | .pdict d => !d.isEmpty

/-- Models the Python membership test of the text error in x, as written at
lines 161, 195, 198, 201, 211-213, 224-228: a substring test when x is a
str, a key test when x is a dict. -/
def pvalHasErr : PVal → Bool
  | .pnone => false
  | .pstr s => strContainsErr s
  | .pdict d => d.any (fun kv => kv.1 == "error")

/-- An error marker: a dict carrying the key error, as produced by the
failure branches of the three client wrappers. -/
def isErrMarker : PVal → Bool
  | .pdict d => d.any (fun kv => kv.1 == "error")
  | _ => false

/-- get_openai_analysis, lines 74-93: with no configured client the fixed
error marker is returned without any outbound call; otherwise the completion
text is returned on success and a dict with key error carrying str(e) on any
raised exception (the except clause catches every Exception). -/
def get_openai_analysis (configured : Bool) (call : CallOutcome String) : PVal :=
  if configured then
    match call with
    | .ok s => .pstr s
    | .exn e => .pdict [("error", e)]
  else .pdict [("error", "OpenAI API key not set.")]

/-- get_mistral_analysis, lines 95-114: same shape as the OpenAI wrapper. -/
def get_mistral_analysis (configured : Bool) (call : CallOutcome String) : PVal :=
  if configured then
    match call with
    | .ok s => .pstr s
    | .exn e => .pdict [("error", e)]
  else .pdict [("error", "Mistral API key not set.")]

/-- get_gemini_analysis_from_genkit, lines 116-130: with an empty flow URL
the fixed error marker is returned without any call; otherwise the parsed
JSON body is returned on success and a dict with key error carrying str(e)
when the call raises a requests.RequestException. -/
def get_gemini_analysis_from_genkit (urlOk : Bool) (call : CallOutcome PVal) : PVal :=
  if urlOk then
    match call with
    | .ok v => v
    | .exn e => .pdict [("error", e)]
  else .pdict [("error", "GENKIT_FLOW_URL not set.")]

/-- Python dict.get k on a string-valued dict. -/
def dictGet (d : List (String × String)) (k : String) : Option String :=
  Option.map Prod.snd (List.find? (fun kv => kv.1 == k) d)

/-- Result of evaluating the Python expression resp.get at line 164: a
value, or a raised AttributeError when resp is not a dict. -/
inductive PyGetRes where
  | val (v : PVal)
  | exnAttr (msg : String)
  deriving DecidableEq

/-- Models gemini_analysis_response.get with key output and the whole
response as the default (line 164); on a non-dict response the attribute
lookup raises, and that exception escapes to the top-level except clause at
line 235. -/
def pyGetOutput : PVal → PyGetRes
  | .pdict d =>
      match dictGet d "output" with
      | some s => .val (.pstr s)
      | none => .val (.pdict d)
  | .pstr _ => .exnAttr "AttributeError: str object has no attribute get"
  | .pnone => .exnAttr "AttributeError: NoneType object has no attribute get"

/-- Per-request behaviour of the external collaborators: whether each direct
client was constructed at process start (lines 42-43), whether the Genkit
flow URL is non-empty (line 47), and what each outbound call would do if it
were made.  The fetch field records what yf.download would do for this
request; the deployed handler never consults it, because the handler body
contains no call to obtener_datos_accion. -/
structure Env where
  openaiConfigured : Bool
  mistralConfigured : Bool
  genkitUrlOk : Bool
  openaiCall : CallOutcome String
  mistralCall : CallOutcome String
  geminiCall : CallOutcome PVal
  fetch : CallOutcome DataFrame
  deriving DecidableEq

/-- Lines 151-165: the three analysis results.  With empty financial_text
all three stay None.  Otherwise the three wrappers are invoked in sequence,
and the Genkit response is post-processed: when it is truthy and the
membership test for error fails, its output field (or the whole response)
becomes the gemini result; a raised AttributeError there escapes to the
top-level except clause, modelled as the error case. -/
def runAnalyses (env : Env) (text : String) : Except String (PVal × PVal × PVal) :=
  if text == "" then .ok (.pnone, .pnone, .pnone)
  else
    let o := get_openai_analysis env.openaiConfigured env.openaiCall
    let m := get_mistral_analysis env.mistralConfigured env.mistralCall
    let gresp := get_gemini_analysis_from_genkit env.genkitUrlOk env.geminiCall
    if gresp.truthy && !(pvalHasErr gresp) then
      match pyGetOutput gresp with
      | .val g => .ok (o, m, g)
      | .exnAttr msg => .error msg
    else .ok (o, m, .pnone)

/-- The inclusion test applied to the OpenAI and Mistral results at lines
195, 198, 211, 212, 224 and 226: truthy, not a dict, and the membership
test for error fails (a substring test, since at that point the value is a
str). -/
def analysisOk : PVal → Bool
  | .pnone => false
  | .pstr s => !(s == "") && !(strContainsErr s)
  | .pdict _ => false

/-- The inclusion test applied to the gemini result at lines 201, 213 and
228: truthy and the membership test for error fails; there is no isinstance
guard, so a dict response without an error key also passes. -/
def geminiOk : PVal → Bool
  | .pnone => false
  | .pstr s => !(s == "") && !(strContainsErr s)
  | .pdict d => !d.isEmpty && !(d.any (fun kv => kv.1 == "error"))

/-- Line 182, inner comprehension: copy a defined value verbatim, turn a
pandas missing value into an explicit None. -/
def cellToNull : Cell → Option Rat
  | .num q => some q
  | .nan => none

/-- Line 182: the shaped mapping of one observation, field by field. -/
def shapeRow (vals : List (String × Cell)) : List (String × Option Rat) :=
  vals.map (fun kv => (kv.1, cellToNull kv.2))

/-- Python dict insertion with string keys: an existing key keeps its
position and gets the new value, a fresh key is appended (insertion order is
preserved, as in Python dicts). -/
def dictInsert {α : Type} (d : List (String × α)) (k : String) (v : α) : List (String × α) :=
  if d.any (fun kv => kv.1 == k) then d.map (fun kv => if kv.1 == k then (k, v) else kv)
  else d ++ [(k, v)]

/-- Lines 170-182, the Result Shaper: normalize the index to naive UTC, key
each observation by the isoformat string of its timestamp, and map each
field to its value or to an explicit None.  The dict is built by inserting
the rows in order; Python dict insertion overwrites in place when a key
repeats. -/
def shape (df : DataFrame) : List (String × List (String × Option Rat)) :=
  (df.rows.map (fun r => (isoformat (tzConvertNone r.1), shapeRow r.2))).foldl
    (fun acc p => dictInsert acc p.1 p.2) []

/-- The fields of the Firestore document as passed to doc_ref.set.  The data
path fills period, interval and data (lines 187-193); the analysis-only path
sets analysis_only (lines 215-219).  Each provider field is present (some)
or absent (none).  The server-assigned updated_at timestamp carries no
information the claims need and is omitted. -/
structure Document where
  symbol : String
  period : Option String
  interval : Option String
  data : Option (List (String × List (String × Option Rat)))
  analysis_only : Bool
  openai_analysis : Option PVal
  mistral_analysis : Option PVal
  gemini_analysis : Option PVal
  deriving DecidableEq

/-- The four response shapes of the handler with their HTTP status codes.
The analysis-only 200 carries the three raw provider results, as at line
232. -/
inductive Response where
  | ok200 (msg : String)
  | okAnalysis (msg : String) (o m g : PVal)
  | notFound (msg : String)
  | serverError (msg : String)
  deriving DecidableEq

/-- HTTP status code of each response shape. -/
def Response.status : Response → Nat
  | .ok200 _ => 200
  | .okAnalysis _ _ _ _ => 200
  | .notFound _ => 404
  | .serverError _ => 500

/-- The parsed query parameters of one request. -/
structure Params where
  symbol : String
  period : String
  interval : String
  financial_text : String
  deriving DecidableEq

/-- The raw query parameters of one request: each present or absent. -/
structure RequestArgs where
  symbol : Option String
  period : Option String
  interval : Option String
  financial_text : Option String
  deriving DecidableEq

/-- Lines 143-146: request.args.get with the documented defaults. -/
def parseParams (r : RequestArgs) : Params :=
  { symbol := r.symbol.getD "GOOGL", period := r.period.getD "6mo",
    interval := r.interval.getD "1d", financial_text := r.financial_text.getD "" }

/-- The document written on the data path, lines 186-204. -/
def mkDataDoc (p : Params) (df : DataFrame) (o m g : PVal) : Document :=
  { symbol := p.symbol, period := some p.period, interval := some p.interval,
    data := some (shape df), analysis_only := false,
    openai_analysis := if analysisOk o then some o else none,
    mistral_analysis := if analysisOk m then some m else none,
    gemini_analysis := if geminiOk g then some g else none }

/-- The document written on the analysis-only path, lines 214-230 (with the
stray duplicated hunk of lines 220-223 dropped, see the header comment). -/
def mkAnalysisDoc (p : Params) (o m g : PVal) : Document :=
  { symbol := p.symbol, period := none, interval := none,
    data := none, analysis_only := true,
    openai_analysis := if analysisOk o then some o else none,
    mistral_analysis := if analysisOk m then some m else none,
    gemini_analysis := if geminiOk g then some g else none }

/-- Lines 208-234, the branch taken when data is None or empty: when at
least one analysis passed its inclusion test, write the analysis-only
document under the key symbol followed by _analysis and answer 200 with the
three raw results; otherwise answer 404 and write nothing. -/
def elseBranch (p : Params) (o m g : PVal) : Response × List (String × Document) :=
  if analysisOk o || analysisOk m || geminiOk g then
    (.okAnalysis ("AI analysis for " ++ p.symbol ++ " saved successfully (no historical data).") o m g,
     [(p.symbol ++ "_analysis", mkAnalysisDoc p o m g)])
  else
    (.notFound ("Could not obtain valid data or perform analysis for " ++ p.symbol ++ "."), [])

/-- Lines 167-234 given the three analysis results and a value for data: a
non-empty frame takes the data path (shape, write under the symbol key,
answer 200); otherwise the else branch runs. -/
def handlerCore (p : Params) (o m g : PVal) (data : Option DataFrame) :
    Response × List (String × Document) :=
  match data with
  | some df =>
      if df.rows.isEmpty then elseBranch p o m g
      else
        (.ok200 ("Data and AI analysis for " ++ p.symbol ++ " saved successfully."),
         [(p.symbol, mkDataDoc p df o m g)])
  | none => elseBranch p o m g

/-- Lines 150-234 as a function of the free name data: run the analysis
block, then branch on data.  An exception raised inside the analysis block
is caught by the except clause at line 235 and answers 500.  In the source
the name data is unbound, so the deployed handler never reaches the branch
with an actual value; this definition is what the branch code does for each
possible value (see obtener_y_guardar_datos for the deployed behaviour). -/
def handlerBody (env : Env) (p : Params) (data : Option DataFrame) :
    Response × List (String × Document) :=
  match runAnalyses env p.financial_text with
  | .error e =>
      (.serverError ("Error processing or saving data for " ++ p.symbol ++ ": " ++ e), [])
  | .ok (o, m, g) => handlerCore p o m g data

/-- What one request did: the HTTP response, the documents written to the
store, and how many times each outbound component was invoked. -/
structure RunTrace where
  response : Response
  writes : List (String × Document)
  fetchCalls : Nat
  openaiCalls : Nat
  mistralCalls : Nat
  geminiCalls : Nat
  deriving DecidableEq

/-- Number of invocations of each analysis wrapper per request: one each
when financial_text is non-empty (lines 155-159), none otherwise. -/
def analysisCallCount (text : String) : Nat :=
  if text == "" then 0 else 1

/-- obtener_y_guardar_datos, lines 134-238, as deployed.  With no store
client every request answers 500 immediately (lines 138-140), before any
parsing, fetch or analysis.  Otherwise the parameters are parsed and the
analysis block runs; then line 167 evaluates the unbound name data, the
NameError (or an AttributeError already raised inside the analysis block)
is caught at line 235, and the request answers 500 with the stringified
error.  No call to obtener_datos_accion is ever made and nothing is ever
written. -/
def obtener_y_guardar_datos (dbAvailable : Bool) (env : Env) (args : RequestArgs) : RunTrace :=
  if dbAvailable then
    match runAnalyses env (parseParams args).financial_text with
    | .error e =>
        { response := .serverError ("Error processing or saving data for "
              ++ (parseParams args).symbol ++ ": " ++ e),
          writes := [], fetchCalls := 0,
          openaiCalls := analysisCallCount (parseParams args).financial_text,
          mistralCalls := analysisCallCount (parseParams args).financial_text,
          geminiCalls := analysisCallCount (parseParams args).financial_text }
    | .ok _ =>
        { response := .serverError ("Error processing or saving data for "
              ++ (parseParams args).symbol ++ ": name data is not defined"),
          writes := [], fetchCalls := 0,
          openaiCalls := analysisCallCount (parseParams args).financial_text,
          mistralCalls := analysisCallCount (parseParams args).financial_text,
          geminiCalls := analysisCallCount (parseParams args).financial_text }
  else
    { response := .serverError "Firestore client not initialized.",
      writes := [], fetchCalls := 0, openaiCalls := 0, mistralCalls := 0, geminiCalls := 0 }

/-- A concrete collaborator behaviour used by the evaluation theorems:
OpenAI raises, Mistral answers with a clean analysis text, the Genkit flow
answers with a JSON object carrying an output field, and the market data
provider would return no rows. -/
def envA : Env :=
  { openaiConfigured := true, mistralConfigured := true, genkitUrlOk := true,
    openaiCall := CallOutcome.exn "connection timed out",
    mistralCall := CallOutcome.ok "Positive outlook for equities.",
    geminiCall := CallOutcome.ok (PVal.pdict [("output", "Neutral stance.")]),
    fetch := CallOutcome.ok { rows := [] } }

/-- Concrete parsed parameters with the documented defaults. -/
def pA : Params :=
  { symbol := "GOOGL", period := "6mo", interval := "1d", financial_text := "" }

/-- A concrete two-row frame with one defined and one missing value in each
row, at distinct instants in a non-UTC provider timezone. -/
def dfA : DataFrame :=
  { rows :=
      [({ instant := 0, offsetMin := -300 }, [("Open", Cell.num 3), ("Close", Cell.nan)]),
       ({ instant := 60, offsetMin := -300 }, [("Open", Cell.nan), ("Close", Cell.num 4)])] }

/-- Request of the isolation scenario: free text supplied. -/
def c6Args : RequestArgs :=
  { symbol := some "ZZZZINVALID", period := none, interval := none,
    financial_text := some "Markets rallied today" }

/-- Inserting a key that is not present appends the pair at the end. -/
theorem dictInsert_fresh {α : Type} (d : List (String × α)) (k : String) (v : α)
    (h : ∀ q ∈ d, q.1 ≠ k) : dictInsert d k v = d ++ [(k, v)] := by
  unfold dictInsert
  have hany : d.any (fun kv => kv.1 == k) = false := by
    rw [List.any_eq_false]
    intro kv hkv
    simp [beq_eq_false_iff_ne.2 (h kv hkv)]
  rw [hany]
  simp

/-- Folding dict insertion over pairs whose keys are fresh for the
accumulator and pairwise distinct just appends the pairs in order. -/
theorem foldl_dictInsert_fresh {α : Type} (l : List (String × α)) :
    ∀ acc : List (String × α),
      (∀ p ∈ l, ∀ q ∈ acc, q.1 ≠ p.1) → (l.map Prod.fst).Nodup →
      l.foldl (fun a p => dictInsert a p.1 p.2) acc = acc ++ l := by
  induction l with
  | nil => intro acc _ _; simp
  | cons p l ih =>
      intro acc hd hl
      rw [List.map_cons, List.nodup_cons] at hl
      rw [List.foldl_cons, dictInsert_fresh acc p.1 p.2 (fun q hq => hd p (by simp) q hq)]
      rw [ih (acc ++ [p]) ?hfresh hl.2]
      · simp
      case hfresh =>
        intro x hx q hq
        rcases List.mem_append.1 hq with hq | hq
        · exact hd x (List.mem_cons_of_mem p hx) q hq
        · have hqp : q = p := by simpa using hq
          subst hqp
          intro hEq
          exact hl.1 (hEq ▸ List.mem_map_of_mem Prod.fst hx)

/-- When the isoformat keys of the rows are pairwise distinct, the shaped
dict is exactly the ordered list of key-row pairs. -/
theorem shape_eq_map (df : DataFrame)
    (hk : (df.rows.map (fun r => isoformat (tzConvertNone r.1))).Nodup) :
    shape df = df.rows.map (fun r => (isoformat (tzConvertNone r.1), shapeRow r.2)) := by
  unfold shape
  rw [foldl_dictInsert_fresh _ [] (by intro p hp q hq; simp at hq) ?hnd]
  · simp
  case hnd =>
    simpa [List.map_map, Function.comp] using hk

/-- A value passing the OpenAI and Mistral inclusion test is a str, hence
not an error marker. -/
theorem analysisOk_not_err (v : PVal) (h : analysisOk v = true) : isErrMarker v = false := by
  cases v with
  | pnone => simp [analysisOk] at h
  | pstr s => rfl
  | pdict d => simp [analysisOk] at h

/-- A value passing the gemini inclusion test carries no error key, hence is
not an error marker. -/
theorem geminiOk_not_err (v : PVal) (h : geminiOk v = true) : isErrMarker v = false := by
  cases v with
  | pnone => simp [geminiOk] at h
  | pstr s => rfl
  | pdict d =>
      simp only [geminiOk, Bool.and_eq_true, Bool.not_eq_true'] at h
      simp [isErrMarker, h.2]

/-- The writes of the else branch: the analysis-only document or nothing. -/
theorem elseBranch_writes (p : Params) (o m g : PVal) :
    (elseBranch p o m g).2 = [(p.symbol ++ "_analysis", mkAnalysisDoc p o m g)] ∨
    (elseBranch p o m g).2 = [] := by
  unfold elseBranch
  split
  · left; rfl
  · right; rfl

/-- The writes of the branch code: the data document for a non-empty frame,
the analysis-only document, or nothing. -/
theorem handlerCore_writes (p : Params) (o m g : PVal) (d : Option DataFrame) :
    (∃ df, d = some df ∧ df.rows.isEmpty = false ∧
        (handlerCore p o m g d).2 = [(p.symbol, mkDataDoc p df o m g)]) ∨
    (handlerCore p o m g d).2 = [(p.symbol ++ "_analysis", mkAnalysisDoc p o m g)] ∨
    (handlerCore p o m g d).2 = [] := by
  cases d with
  | none => exact Or.inr (elseBranch_writes p o m g)
  | some df =>
      by_cases hdf : df.rows.isEmpty = true
      · rw [show handlerCore p o m g (some df) = elseBranch p o m g by
            simp [handlerCore, hdf]]
        exact Or.inr (elseBranch_writes p o m g)
      · refine Or.inl ⟨df, rfl, by simpa using hdf, ?_⟩
        simp [handlerCore, hdf]

/-- The writes of the handler body: those of the branch code for the three
computed analysis results, or nothing when the analysis block raised. -/
theorem handlerBody_writes (env : Env) (p : Params) (d : Option DataFrame) :
    (∃ o m g, runAnalyses env p.financial_text = Except.ok (o, m, g) ∧
        (handlerBody env p d).2 = (handlerCore p o m g d).2) ∨
    (handlerBody env p d).2 = [] := by
  unfold handlerBody
  cases hrun : runAnalyses env p.financial_text with
  | error e => right; rfl
  | ok omg =>
      obtain ⟨o, m, g⟩ := omg
      exact Or.inl ⟨o, m, g, rfl, rfl⟩

/-- Every write of the handler body is the data document under the symbol
key or the analysis-only document under the symbol_analysis key, built from
the computed analysis results. -/
theorem handlerBody_mem_doc (env : Env) (p : Params) (d : Option DataFrame)
    (k : String) (doc : Document) (hmem : (k, doc) ∈ (handlerBody env p d).2) :
    ∃ o m g, runAnalyses env p.financial_text = Except.ok (o, m, g) ∧
      ((k = p.symbol ++ "_analysis" ∧ doc = mkAnalysisDoc p o m g) ∨
       (∃ df, k = p.symbol ∧ doc = mkDataDoc p df o m g)) := by
  rcases handlerBody_writes env p d with ⟨o, m, g, hrun, hw⟩ | hw
  · rw [hw] at hmem
    rcases handlerCore_writes p o m g d with ⟨df, _, _, h⟩ | h | h
    · rw [h] at hmem
      simp only [List.mem_singleton, Prod.mk.injEq] at hmem
      exact ⟨o, m, g, hrun, Or.inr ⟨df, hmem.1, hmem.2⟩⟩
    · rw [h] at hmem
      simp only [List.mem_singleton, Prod.mk.injEq] at hmem
      exact ⟨o, m, g, hrun, Or.inl ⟨hmem.1, hmem.2⟩⟩
    · rw [h] at hmem
      simp at hmem
  · rw [hw] at hmem
    simp at hmem

/-- C1 (refuted): for every request with the store available, the deployed
handler makes zero calls to the Market Data Fetcher and answers 500 - the
name data at line 167 is unbound, so the handler never fetches, never
branches on a fetch result, and the NameError is caught by the top-level
except clause.  The claim says the Fetcher is invoked exactly once before
branching. -/
theorem handler_never_fetches (env : Env) (args : RequestArgs) :
    (obtener_y_guardar_datos true env args).fetchCalls = 0 ∧
    Response.status (obtener_y_guardar_datos true env args).response = 500 := by
  unfold obtener_y_guardar_datos
  cases hrun : runAnalyses env (parseParams args).financial_text with
  | error e => exact ⟨rfl, rfl⟩
  | ok v => exact ⟨rfl, rfl⟩

/-- C2 (refuted): for every request carrying no financial_text - so that the
failure-path premise of the claim holds whatever the provider would have
answered - the deployed handler answers 500 with the NameError message, not
404, and writes nothing. -/
theorem no_text_request_answers_500 (env : Env) (s p i : Option String) :
    obtener_y_guardar_datos true env
        { symbol := s, period := p, interval := i, financial_text := none } =
      { response := Response.serverError ("Error processing or saving data for "
            ++ s.getD "GOOGL" ++ ": name data is not defined"),
        writes := [], fetchCalls := 0,
        openaiCalls := 0, mistralCalls := 0, geminiCalls := 0 } :=
  rfl

/-- C3 (confirmed): with the store connection unavailable at process start,
every request answers 500 with the fixed message before any fetch or
analysis call is attempted, regardless of its parameters. -/
theorem store_unavailable_500 (env : Env) (args : RequestArgs) :
    obtener_y_guardar_datos false env args =
      { response := Response.serverError "Firestore client not initialized.",
        writes := [], fetchCalls := 0,
        openaiCalls := 0, mistralCalls := 0, geminiCalls := 0 } :=
  rfl

/-- C5 (confirmed): shaping is deterministic - equal time series always
shape to identical output; the embedded transform of lines 170-182 is a
pure function of the frame value. -/
theorem shape_deterministic (s₁ s₂ : DataFrame) (h : s₁ = s₂) :
    shape s₁ = shape s₂ := by
  rw [h]

/-- Witness for shape_deterministic at the concrete frame dfA. -/
theorem shape_deterministic_witness : shape dfA = shape dfA :=
  shape_deterministic dfA dfA rfl

/-- C6 (refuted in its inclusion half): with free text supplied, OpenAI
failing and Mistral succeeding, all three analysis clients are still invoked
- one failure does not block the others - but the deployed handler then hits
the unbound name data and answers 500, so the successful Mistral result is
included in no response and no document. -/
theorem isolation_without_inclusion :
    analysisOk (get_mistral_analysis true (CallOutcome.ok "Positive outlook for equities.")) = true ∧
    isErrMarker (get_openai_analysis true (CallOutcome.exn "connection timed out")) = true ∧
    (obtener_y_guardar_datos true envA c6Args).openaiCalls = 1 ∧
    (obtener_y_guardar_datos true envA c6Args).mistralCalls = 1 ∧
    (obtener_y_guardar_datos true envA c6Args).geminiCalls = 1 ∧
    Response.status (obtener_y_guardar_datos true envA c6Args).response = 500 ∧
    (obtener_y_guardar_datos true envA c6Args).writes = [] := by
  refine ⟨by decide, by decide, rfl, rfl, rfl, rfl, rfl⟩

/-- C9 (confirmed): every provider-call failure is caught at the call site
and converted to a failure value - None for the fetcher, an error marker
dict for each analysis wrapper - and that value fails the inclusion tests;
the wrappers are total, so no exception crosses a component boundary into
the handler body. -/
theorem provider_failures_caught (e : String) (cfgO cfgM urlOk : Bool) :
    obtener_datos_accion (CallOutcome.exn e) = none ∧
    isErrMarker (get_openai_analysis cfgO (CallOutcome.exn e)) = true ∧
    isErrMarker (get_mistral_analysis cfgM (CallOutcome.exn e)) = true ∧
    isErrMarker (get_gemini_analysis_from_genkit urlOk (CallOutcome.exn e)) = true ∧
    analysisOk (get_openai_analysis cfgO (CallOutcome.exn e)) = false ∧
    analysisOk (get_mistral_analysis cfgM (CallOutcome.exn e)) = false ∧
    geminiOk (get_gemini_analysis_from_genkit urlOk (CallOutcome.exn e)) = false := by
  refine ⟨rfl, ?_, ?_, ?_, ?_, ?_, ?_⟩ <;> cases cfgO <;> cases cfgM <;> cases urlOk <;> rfl

/-- C4 (confirmed): for a time series whose observation keys are pairwise
distinct - the data model orders observations by timestamp - the shaped
mapping has exactly one key per observation, in order; each key maps to
exactly one entry per field; defined values are copied verbatim and missing
values become an explicit None, never omitted. -/
theorem shape_lossless (df : DataFrame)
    (hk : (df.rows.map (fun r => isoformat (tzConvertNone r.1))).Nodup) :
    (shape df).length = df.rows.length ∧
    shape df = df.rows.map (fun r => (isoformat (tzConvertNone r.1), shapeRow r.2)) ∧
    (∀ r ∈ df.rows, (shapeRow r.2).length = r.2.length) ∧
    (∀ fields : List (String × Cell), ∀ f : String, ∀ c : Cell,
        (f, c) ∈ fields → (f, cellToNull c) ∈ shapeRow fields) ∧
    (∀ q : Rat, cellToNull (Cell.num q) = some q) ∧ cellToNull Cell.nan = none := by
  have he := shape_eq_map df hk
  refine ⟨by rw [he, List.length_map], he, ?_, ?_, fun q => rfl, rfl⟩
  · intro r _
    simp [shapeRow]
  · intro fields f c hf
    exact List.mem_map_of_mem (fun kv => (kv.1, cellToNull kv.2)) hf

/-- Witness for shape_lossless at the concrete two-row frame dfA. -/
theorem shape_lossless_witness :
    (dfA.rows.map (fun r => isoformat (tzConvertNone r.1))).Nodup ∧
    ((shape dfA).length = dfA.rows.length ∧
     shape dfA = dfA.rows.map (fun r => (isoformat (tzConvertNone r.1), shapeRow r.2)) ∧
     (∀ r ∈ dfA.rows, (shapeRow r.2).length = r.2.length) ∧
     (∀ fields : List (String × Cell), ∀ f : String, ∀ c : Cell,
         (f, c) ∈ fields → (f, cellToNull c) ∈ shapeRow fields) ∧
     (∀ q : Rat, cellToNull (Cell.num q) = some q) ∧ cellToNull Cell.nan = none) :=
  ⟨by decide, shape_lossless dfA (by decide)⟩

/-- C7 (confirmed for the branch code of lines 184-234): every document the
handler body writes carries either the symbol key, with the shaped data
present and the analysis-only marker off, or the symbol followed by
_analysis as key, with no data and the marker on; and no request writes
more than one document. -/
theorem doc_key_selection (env : Env) (p : Params) (d : Option DataFrame) :
    (handlerBody env p d).2.length ≤ 1 ∧
    ∀ k doc, (k, doc) ∈ (handlerBody env p d).2 →
      (doc.data.isSome = true ∧ doc.analysis_only = false ∧ k = p.symbol) ∨
      (doc.data = none ∧ doc.analysis_only = true ∧ k = p.symbol ++ "_analysis") := by
  constructor
  · rcases handlerBody_writes env p d with ⟨o, m, g, _, hw⟩ | hw
    · rw [hw]
      rcases handlerCore_writes p o m g d with ⟨df, _, _, h⟩ | h | h <;> simp [h]
    · simp [hw]
  · intro k doc hmem
    obtain ⟨o, m, g, _, hcase⟩ := handlerBody_mem_doc env p d k doc hmem
    rcases hcase with ⟨hk, hdoc⟩ | ⟨df, hk, hdoc⟩
    · subst hk; subst hdoc
      exact Or.inr ⟨rfl, rfl, rfl⟩
    · subst hk; subst hdoc
      exact Or.inl ⟨rfl, rfl, rfl⟩

/-- Witness for doc_key_selection at a concrete environment, parameters and
frame. -/
theorem doc_key_selection_witness :
    (handlerBody envA pA (some dfA)).2.length ≤ 1 ∧
    ∀ k doc, (k, doc) ∈ (handlerBody envA pA (some dfA)).2 →
      (doc.data.isSome = true ∧ doc.analysis_only = false ∧ k = pA.symbol) ∨
      (doc.data = none ∧ doc.analysis_only = true ∧ k = pA.symbol ++ "_analysis") :=
  doc_key_selection envA pA (some dfA)

/-- C8 (confirmed for the branch code): in every document the handler body
writes, each provider field is present exactly when that provider result
passes its inclusion test, and a present field is never an error marker; on
a provider failure the field is absent entirely. -/
theorem analysis_fields_only_on_success (env : Env) (p : Params) (d : Option DataFrame)
    (o m g : PVal) (hrun : runAnalyses env p.financial_text = Except.ok (o, m, g)) :
    ∀ k doc, (k, doc) ∈ (handlerBody env p d).2 →
      doc.openai_analysis = (if analysisOk o then some o else none) ∧
      doc.mistral_analysis = (if analysisOk m then some m else none) ∧
      doc.gemini_analysis = (if geminiOk g then some g else none) ∧
      (∀ v, doc.openai_analysis = some v → analysisOk v = true ∧ isErrMarker v = false) ∧
      (∀ v, doc.mistral_analysis = some v → analysisOk v = true ∧ isErrMarker v = false) ∧
      (∀ v, doc.gemini_analysis = some v → geminiOk v = true ∧ isErrMarker v = false) := by
  intro k doc hmem
  obtain ⟨o', m', g', hrun', hcase⟩ := handlerBody_mem_doc env p d k doc hmem
  rw [hrun] at hrun'
  injection hrun' with h
  have ho : o = o' := congrArg Prod.fst h
  have hm : m = m' := congrArg (fun x => x.2.1) h
  have hg : g = g' := congrArg (fun x => x.2.2) h
  subst ho; subst hm; subst hg
  have hfields :
      doc.openai_analysis = (if analysisOk o then some o else none) ∧
      doc.mistral_analysis = (if analysisOk m then some m else none) ∧
      doc.gemini_analysis = (if geminiOk g then some g else none) := by
    rcases hcase with ⟨_, hdoc⟩ | ⟨df, _, hdoc⟩ <;> subst hdoc <;> exact ⟨rfl, rfl, rfl⟩
  refine ⟨hfields.1, hfields.2.1, hfields.2.2, ?_, ?_, ?_⟩
  · intro v hv
    rw [hfields.1] at hv
    by_cases h : analysisOk o = true
    · rw [if_pos h] at hv
      have hv' := Option.some.inj hv
      subst hv'
      exact ⟨h, analysisOk_not_err o h⟩
    · rw [if_neg h] at hv
      exact Option.noConfusion hv
  · intro v hv
    rw [hfields.2.1] at hv
    by_cases h : analysisOk m = true
    · rw [if_pos h] at hv
      have hv' := Option.some.inj hv
      subst hv'
      exact ⟨h, analysisOk_not_err m h⟩
    · rw [if_neg h] at hv
      exact Option.noConfusion hv
  · intro v hv
    rw [hfields.2.2] at hv
    by_cases h : geminiOk g = true
    · rw [if_pos h] at hv
      have hv' := Option.some.inj hv
      subst hv'
      exact ⟨h, geminiOk_not_err g h⟩
    · rw [if_neg h] at hv
      exact Option.noConfusion hv

/-- Witness for analysis_fields_only_on_success at a concrete environment,
parameters and frame (no text supplied, so the three results are None). -/
theorem analysis_fields_only_on_success_witness :
    runAnalyses envA pA.financial_text = Except.ok (PVal.pnone, PVal.pnone, PVal.pnone) ∧
    ∀ k doc, (k, doc) ∈ (handlerBody envA pA (some dfA)).2 →
      doc.openai_analysis = (if analysisOk PVal.pnone then some PVal.pnone else none) ∧
      doc.mistral_analysis = (if analysisOk PVal.pnone then some PVal.pnone else none) ∧
      doc.gemini_analysis = (if geminiOk PVal.pnone then some PVal.pnone else none) ∧
      (∀ v, doc.openai_analysis = some v → analysisOk v = true ∧ isErrMarker v = false) ∧
      (∀ v, doc.mistral_analysis = some v → analysisOk v = true ∧ isErrMarker v = false) ∧
      (∀ v, doc.gemini_analysis = some v → geminiOk v = true ∧ isErrMarker v = false) :=
  ⟨rfl, analysis_fields_only_on_success envA pA (some dfA)
      PVal.pnone PVal.pnone PVal.pnone rfl⟩

/-- C10 (confirmed): an analysis result that is a string containing the
substring error anywhere is classified as a failure by the membership tests
of lines 195-202 and 211-213 even though the provider call succeeded: it
fails both inclusion tests, no written document ever stores it, and with
the other providers also failing the analysis-only condition fails, so the
request answers 404 and writes nothing. -/
theorem error_text_classified_failure (s : String) (hs : strContainsErr s = true) :
    analysisOk (PVal.pstr s) = false ∧
    geminiOk (PVal.pstr s) = false ∧
    (∀ env p d k doc, (k, doc) ∈ (handlerBody env p d).2 →
        doc.openai_analysis ≠ some (PVal.pstr s) ∧
        doc.mistral_analysis ≠ some (PVal.pstr s) ∧
        doc.gemini_analysis ≠ some (PVal.pstr s)) ∧
    (∀ p m g, analysisOk m = false → geminiOk g = false →
        handlerCore p (PVal.pstr s) m g none =
          (Response.notFound ("Could not obtain valid data or perform analysis for "
              ++ p.symbol ++ "."), [])) := by
  have hak : analysisOk (PVal.pstr s) = false := by simp [analysisOk, hs]
  have hgk : geminiOk (PVal.pstr s) = false := by simp [geminiOk, hs]
  refine ⟨hak, hgk, ?_, ?_⟩
  · intro env p d k doc hmem
    obtain ⟨o, m, g, _, hcase⟩ := handlerBody_mem_doc env p d k doc hmem
    have hfields :
        doc.openai_analysis = (if analysisOk o then some o else none) ∧
        doc.mistral_analysis = (if analysisOk m then some m else none) ∧
        doc.gemini_analysis = (if geminiOk g then some g else none) := by
      rcases hcase with ⟨_, hdoc⟩ | ⟨df, _, hdoc⟩ <;> subst hdoc <;> exact ⟨rfl, rfl, rfl⟩
    refine ⟨?_, ?_, ?_⟩
    · rw [hfields.1]
      by_cases h : analysisOk o = true
      · rw [if_pos h]
        intro hv
        rw [Option.some.inj hv] at h
        rw [hak] at h
        exact Bool.noConfusion h
      · rw [if_neg h]
        exact fun hv => Option.noConfusion hv
    · rw [hfields.2.1]
      by_cases h : analysisOk m = true
      · rw [if_pos h]
        intro hv
        rw [Option.some.inj hv] at h
        rw [hak] at h
        exact Bool.noConfusion h
      · rw [if_neg h]
        exact fun hv => Option.noConfusion hv
    · rw [hfields.2.2]
      by_cases h : geminiOk g = true
      · rw [if_pos h]
        intro hv
        rw [Option.some.inj hv] at h
        rw [hgk] at h
        exact Bool.noConfusion h
      · rw [if_neg h]
        exact fun hv => Option.noConfusion hv
  · intro p m g hm hg
    simp [handlerCore, elseBranch, hak, hm, hg]

/-- Witness for error_text_classified_failure at a concrete string that
contains the substring error. -/
theorem error_text_classified_failure_witness :
    strContainsErr "an error occurred" = true ∧
    (analysisOk (PVal.pstr "an error occurred") = false ∧
     geminiOk (PVal.pstr "an error occurred") = false ∧
     (∀ env p d k doc, (k, doc) ∈ (handlerBody env p d).2 →
         doc.openai_analysis ≠ some (PVal.pstr "an error occurred") ∧
         doc.mistral_analysis ≠ some (PVal.pstr "an error occurred") ∧
         doc.gemini_analysis ≠ some (PVal.pstr "an error occurred")) ∧
     (∀ p m g, analysisOk m = false → geminiOk g = false →
         handlerCore p (PVal.pstr "an error occurred") m g none =
           (Response.notFound ("Could not obtain valid data or perform analysis for "
               ++ p.symbol ++ "."), []))) :=
  ⟨by decide, error_text_classified_failure "an error occurred" (by decide)⟩

end HIBILLX
